import Mathlib

/-
  Verification development for the spreadsheet-xlsform-validator repository.

  The core embedding follows src/django_xlsform_validator/validation.py
  (class XLSFormValidator) and src/xlsform_validator/odk_validate/utils.py.
  Spreadsheet cell values (as delivered by the tabular reader) are modelled
  by the CellValue type: the NaN/empty marker, strings, machine integers and
  floating values.  Floating cell values are modelled exactly by decimal
  fixed-point numbers (a mantissa and a power-of-ten scale): every float a
  spreadsheet cell or literal of this code base denotes is such a value, and
  the representation keeps every definition evaluable by the kernel.  The
  Python float special values inf/nan are not modelled, nan being covered by
  the dedicated empty marker.
-/

namespace XlsVal

/-- A decimal fixed-point number: the denoted value is mant divided by
ten to the scale.  Equality of denoted values is decEq, not structural
equality. -/
structure Dec where
  mant : Int
  scale : Nat
deriving DecidableEq, Repr

/-- Ten to the scale of a decimal, as an integer. -/
def Dec.den (d : Dec) : Int := (10 : Int) ^ d.scale

/-- Value equality of decimals, by cross multiplication. -/
def decEqv (a b : Dec) : Bool := a.mant * b.den = b.mant * a.den

/-- Value order of decimals, by cross multiplication. -/
def decLt (a b : Dec) : Bool := a.mant * b.den < b.mant * a.den

/-- Non-strict value order of decimals. -/
def decLe (a b : Dec) : Bool := a.mant * b.den ≤ b.mant * a.den

/-- Python int(float): truncation toward zero. -/
def decTrunc (d : Dec) : Int := Int.tdiv d.mant d.den

/-- Whether a decimal denotes an integer (the Python test value == int(value)). -/
def decIsIntegral (d : Dec) : Bool := Int.emod d.mant d.den = 0

/-- Negation of a decimal. -/
def decNeg (d : Dec) : Dec := ⟨-d.mant, d.scale⟩

/-- A scalar cell value from the tabular data source. -/
inductive CellValue where
  | na : CellValue
  | strV (s : String) : CellValue
  | intV (n : Int) : CellValue
  | floatV (d : Dec) : CellValue
deriving DecidableEq, Repr

/-- pd.isna for a scalar cell: true exactly for the NaN/empty marker. -/
def isNA : CellValue → Bool
  | .na => true
  | _ => false

/-- Numeric value of a list of decimal digit characters. -/
def digitsNat (cs : List Char) : Nat :=
  cs.foldl (fun a c => a * 10 + (c.toNat - 48)) 0

/-- Characters with surrounding whitespace removed (str.strip). -/
def trimChars (cs : List Char) : List Char :=
  ((cs.dropWhile Char.isWhitespace).reverse.dropWhile Char.isWhitespace).reverse

/-- str.strip as a structural string function. -/
def strTrim (s : String) : String := String.mk (trimChars s.data)

/-- str.lower as a structural string function (ASCII lowering, matching
the values in scope). -/
def strLower (s : String) : String := String.mk (s.data.map Char.toLower)

/-- Python int(string): strip surrounding whitespace, optional sign, then
decimal digits only (the underscore digit separator is not modelled). -/
def pyParseInt (s : String) : Option Int :=
  match trimChars s.data with
  | [] => none
  | '+' :: r => if r ≠ [] ∧ r.all Char.isDigit then some (digitsNat r) else none
  | '-' :: r => if r ≠ [] ∧ r.all Char.isDigit then some (-(digitsNat r : Int)) else none
  | l => if l.all Char.isDigit then some (digitsNat l) else none

/-- Exponent part of a Python float literal: [eE][+-]?digits, must consume
the whole remainder; a positive exponent multiplies the mantissa, a
negative one deepens the scale. -/
def parseExpPart (m : Dec) (cs : List Char) : Option Dec :=
  match cs with
  | [] => some m
  | c :: r =>
    if c = 'e' ∨ c = 'E' then
      let (neg, r2) := match r with
        | '+' :: t => (false, t)
        | '-' :: t => (true, t)
        | t => (false, t)
      if r2 ≠ [] ∧ r2.all Char.isDigit then
        let k := digitsNat r2
        if neg then some ⟨m.mant, m.scale + k⟩
        else some ⟨m.mant * (10 : Int) ^ k, m.scale⟩
      else none
    else none

/-- Mantissa (and exponent) of a Python float literal, after the sign:
digits [. digits] | . digits, then optional exponent. -/
def parseMantissa (cs : List Char) : Option Dec :=
  let ds := cs.takeWhile Char.isDigit
  let r1 := cs.dropWhile Char.isDigit
  match r1 with
  | '.' :: r2 =>
    let fs := r2.takeWhile Char.isDigit
    let r3 := r2.dropWhile Char.isDigit
    if ds = [] ∧ fs = [] then none
    else parseExpPart ⟨(digitsNat ds * 10 ^ fs.length + digitsNat fs : Nat), fs.length⟩ r3
  | _ => if ds = [] then none else parseExpPart ⟨(digitsNat ds : Nat), 0⟩ r1

/-- Python float(string): strip whitespace, optional sign, decimal literal
with optional fraction and exponent (inf/nan special values not modelled). -/
def pyParseFloat (s : String) : Option Dec :=
  match trimChars s.data with
  | '+' :: r => parseMantissa r
  | '-' :: r => (parseMantissa r).map decNeg
  | l => parseMantissa l

/-- Digits of a fraction part, zero-padded on the left to the scale and
with trailing zeros removed. -/
def fracDigitsOf (fp : Nat) (scale : Nat) : String :=
  let raw := toString fp
  let padded := String.mk (List.replicate (scale - raw.length) '0') ++ raw
  String.mk ((padded.data.reverse.dropWhile (fun c => c = '0')).reverse)

/-- Python str(float) for a decimal value: sign, integer part, point, the
fraction digits without trailing zeros (a lone zero when the value is
integral), matching the repr of floats that denote decimals exactly. -/
def decRepr (d : Dec) : String :=
  let pn : Nat := 10 ^ d.scale
  let a : Nat := d.mant.natAbs
  let fs := fracDigitsOf (a % pn) d.scale
  (if d.mant < 0 then "-" else "") ++ toString (a / pn) ++ "." ++
    (if fs = "" then "0" else fs)

/-- Python str(value) for a scalar cell value. -/
def pyStrCell : CellValue → String
  | .na => "nan"
  | .strV s => s
  | .intV n => toString n
  | .floatV d => decRepr d

/-- Python int(value) on a raw cell value: truncate floats, parse strings;
int(nan) raises, modelled as none. -/
def pyIntOfCell : CellValue → Option Int
  | .na => none
  | .strV s => pyParseInt s
  | .intV n => some n
  | .floatV d => some (decTrunc d)

/-- Python float(value) on a raw cell value. -/
def pyFloatOfCell : CellValue → Option Dec
  | .na => none
  | .strV s => pyParseFloat s
  | .intV n => some ⟨n, 0⟩
  | .floatV d => some d

/-- First-match association-list lookup, modelling Python dict lookup (the
extraction code never inserts a key twice without intending last-wins, and
the validator state is taken after construction, keys unique). -/
def dlookup {β : Type} : List (String × β) → String → Option β
  | [], _ => none
  | p :: r, k => if p.1 = k then some p.2 else dlookup r k

/-- The XLSFormValidator state after schema extraction
(src/django_xlsform_validator/validation.py, class XLSFormValidator):
question name to type string, name to constraint string, required-question
set, choice list name to canonical values (scalar choice values modelled by
their str() form), label to name, and list name to alias-to-value mapping. -/
structure Validator where
  question_types : List (String × String)
  question_constraints : List (String × String)
  required_questions : List String
  choice_lists : List (String × List String)
  question_labels : List (String × String)
  choice_aliases : List (String × List (String × String))
deriving Repr

/-- _resolve_column_to_question_name: exact match against question names
first, then against labels. -/
def resolveColumn (V : Validator) (column : String) : Option String :=
  if (dlookup V.question_types column).isSome then some column
  else dlookup V.question_labels column

/-- str.startswith, as a structural character-list test (equivalent to
the library prefix test, but evaluable by the kernel). -/
def strStartsWith (s p : String) : Bool :=
  p.data.isPrefixOf s.data

/-- _extract_list_name: the part after the first space of a
select_one/select_multiple type string, stripped. -/
def extractListName (question_type : String) : Option String :=
  if strStartsWith question_type "select_one " then
    some (strTrim (question_type.drop 11))
  else if strStartsWith question_type "select_multiple " then
    some (strTrim (question_type.drop 16))
  else none

/-- Shape test for the date regex ^\d4-\d2-\d2$ used by _validate_type. -/
def isDateShape (s : String) : Bool :=
  match s.data with
  | [a, b, c, d, '-', e, f, '-', g, h] =>
    [a, b, c, d, e, f, g, h].all Char.isDigit
  | _ => false

/-- Shape test for the time regex ^\d2:\d2(:\d2)?$ used by _validate_type. -/
def isTimeShape (s : String) : Bool :=
  match s.data with
  | [a, b, ':', c, d] => [a, b, c, d].all Char.isDigit
  | [a, b, ':', c, d, ':', e, f] => [a, b, c, d, e, f].all Char.isDigit
  | _ => false

/-- Number of days in a month (Gregorian), for the strptime model. -/
def daysInMonth (y m : Nat) : Nat :=
  if m = 2 then
    if y % 4 = 0 ∧ (y % 100 ≠ 0 ∨ y % 400 = 0) then 29 else 28
  else if m = 4 ∨ m = 6 ∨ m = 9 ∨ m = 11 then 30
  else 31

/-- One or two digit field of strptime. -/
def twoDigitField (cs : List Char) : Option (Nat × List Char) :=
  match cs with
  | a :: b :: r =>
    if a.isDigit then
      if b.isDigit then some (digitsNat [a, b], r) else some (digitsNat [a], b :: r)
    else none
  | [a] => if a.isDigit then some (digitsNat [a], []) else none
  | [] => none

/-- Python datetime.strptime(value, date-space-time format) modelled as a
boolean acceptance test: 4-digit year, month/day/hour/minute/second fields
with calendar range validation. -/
def isStrptimeTimestamp (s : String) : Bool :=
  match s.data with
  | y1 :: y2 :: y3 :: y4 :: '-' :: r1 =>
    if [y1, y2, y3, y4].all Char.isDigit then
      let y := digitsNat [y1, y2, y3, y4]
      match twoDigitField r1 with
      | some (mo, '-' :: r2) =>
        match twoDigitField r2 with
        | some (d, ' ' :: r3) =>
          match twoDigitField r3 with
          | some (h, ':' :: r4) =>
            match twoDigitField r4 with
            | some (mi, ':' :: r5) =>
              match twoDigitField r5 with
              | some (se, []) =>
                decide (1 ≤ mo) && decide (mo ≤ 12) && decide (1 ≤ d) &&
                decide (d ≤ daysInMonth y mo) && decide (h ≤ 23) &&
                decide (mi ≤ 59) && decide (se ≤ 61)
              | _ => false
            | _ => false
          | _ => false
        | _ => false
      | _ => false
    else false
  | _ => false

/-- Whitespace split of Python str.split(): maximal non-whitespace runs,
no empty tokens. -/
def pySplitChars : List Char → List Char → List String
  | [], [] => []
  | [], acc => [String.mk acc.reverse]
  | c :: r, acc =>
    if c.isWhitespace then
      match acc with
      | [] => pySplitChars r []
      | _ => String.mk acc.reverse :: pySplitChars r []
    else pySplitChars r (c :: acc)

/-- Whitespace split of Python str.split(): tokens, no empties. -/
def pySplit (s : String) : List String :=
  pySplitChars s.data []

/-- _validate_type: per-type acceptance check, returning the error
explanation on failure and none on success. -/
def validateType (V : Validator) (value : CellValue) (question_type question_name : String)
    (list_name : Option String) : Option String :=
  let v := pyStrCell value
  if question_type = "integer" then
    match pyParseInt v with
    | some _ => none
    | none => some ("Value \x27" ++ v ++ "\x27 is not a valid integer for question \x27" ++
        question_name ++ "\x27")
  else if question_type = "decimal" then
    match pyParseFloat v with
    | some _ => none
    | none => some ("Value \x27" ++ v ++ "\x27 is not a valid decimal for question \x27" ++
        question_name ++ "\x27")
  else if strStartsWith question_type "select_one" then
    match list_name with
    | some ln =>
      if ln ≠ "" then
        match dlookup V.choice_lists ln with
        | some choices =>
          let vl := strLower v
          let choicesLower := choices.map strLower
          let aliasesLower := (match dlookup V.choice_aliases ln with
            | some al => al.map (fun (p : String × String) => strLower p.1)
            | none => [])
          if vl ∈ choicesLower ∨ vl ∈ aliasesLower then none
          else some ("Value \x27" ++ v ++ "\x27 is not a valid choice for select_one question \x27" ++
            question_name ++ "\x27")
        | none => none
      else none
    | none => none
  else if strStartsWith question_type "select_multiple" then
    match list_name with
    | some ln =>
      if ln ≠ "" then
        match dlookup V.choice_lists ln with
        | some choices =>
          let toks := (pySplit v).map (fun t => strLower (strTrim t))
          let choicesLower := choices.map strLower
          let aliasesLower := (match dlookup V.choice_aliases ln with
            | some al => al.map (fun (p : String × String) => strLower p.1)
            | none => [])
          match toks.find? (fun t => ¬ (t ∈ choicesLower ∨ t ∈ aliasesLower)) with
          | some t => some ("Value \x27" ++ t ++ "\x27 is not a valid choice for select_multiple question \x27" ++
              question_name ++ "\x27")
          | none => none
        | none => none
      else none
    | none => none
  else if question_type = "date" then
    if isDateShape v then none
    else if isStrptimeTimestamp v then none
    else some ("Value \x27" ++ v ++ "\x27 is not a valid date (YYYY-MM-DD) for question \x27" ++
      question_name ++ "\x27")
  else if question_type = "time" then
    if isTimeShape v then none
    else some ("Value \x27" ++ v ++ "\x27 is not a valid time (HH:MM[:SS]) for question \x27" ++
      question_name ++ "\x27")
  else none

end XlsVal

namespace XlsVal

/- ### Regex engine (model of Python re for the subset used by constraints) -/

/-- Item of a regex character class. -/
inductive ClassItem where
  | single (c : Char)
  | range (a b : Char)
  | digitC
  | wordC
  | spaceC
deriving DecidableEq, Repr

/-- Regex abstract syntax (quantifiers expanded at parse time). -/
inductive Regex where
  | emptyR
  | seq (a b : Regex)
  | alt (a b : Regex)
  | star (a : Regex)
  | chr (c : Char)
  | anyc
  | cls (neg : Bool) (items : List ClassItem)
  | startAnchor
  | endAnchor
deriving Repr

/-- Does a character satisfy a class item. -/
def charInClassItem (c : Char) : ClassItem → Bool
  | .single a => c = a
  | .range a b => a ≤ c ∧ c ≤ b
  | .digitC => c.isDigit
  | .wordC => c.isAlphanum ∨ c = '_'
  | .spaceC => c.isWhitespace

/-- Class membership, with negation. -/
def matchesClass (neg : Bool) (items : List ClassItem) (c : Char) : Bool :=
  xor neg (items.any (charInClassItem c))

/-- Node count of a regex, used to bound matcher fuel. -/
def rsize : Regex → Nat
  | .seq a b => rsize a + rsize b + 1
  | .alt a b => rsize a + rsize b + 1
  | .star a => rsize a + 1
  | _ => 1

/-- One structural layer of the backtracking matcher in continuation
style: recursion over the regex, with star iteration delegated to the
next-fuel layer handler.  The position argument tracks how many
characters have been consumed (for the start anchor and for the star
progress condition). -/
def rmatchA (next : Regex → List Char → Nat → (List Char → Nat → Bool) → Bool) :
    Regex → List Char → Nat → (List Char → Nat → Bool) → Bool
  | .emptyR, s, pos, k => k s pos
  | .chr c, s, pos, k =>
    match s with
    | c2 :: r => c2 = c && k r (pos + 1)
    | [] => false
  | .anyc, s, pos, k =>
    match s with
    | c2 :: r => c2 ≠ '\n' && k r (pos + 1)
    | [] => false
  | .cls neg items, s, pos, k =>
    match s with
    | c2 :: r => matchesClass neg items c2 && k r (pos + 1)
    | [] => false
  | .startAnchor, s, pos, k => pos = 0 && k s pos
  | .endAnchor, s, pos, k => s.isEmpty && k s pos
  | .seq a b, s, pos, k => rmatchA next a s pos (fun s2 p2 => rmatchA next b s2 p2 k)
  | .alt a b, s, pos, k => rmatchA next a s pos k || rmatchA next b s pos k
  | .star a, s, pos, k =>
    k s pos || next a s pos
      (fun s2 p2 => decide (pos < p2) && next (.star a) s2 p2 k)

/-- Backtracking matcher: fuel is spent only on star unfoldings, and is
chosen large enough for every genuine match (a star must consume input to
iterate, so a successful path unfolds each star at most once per input
position). -/
def rmatch : Nat → Regex → List Char → Nat → (List Char → Nat → Bool) → Bool
  | 0 => rmatchA (fun _ _ _ _ => false)
  | fuel + 1 => rmatchA (rmatch fuel)

/-- n-fold repetition of a regex. -/
def repN (r : Regex) : Nat → Regex
  | 0 => .emptyR
  | n + 1 => .seq r (repN r n)

/-- Up to k further optional copies of a regex. -/
def optN (r : Regex) : Nat → Regex
  | 0 => .emptyR
  | k + 1 => .alt (.seq r (optN r k)) .emptyR

/-- Escaped atom outside a character class (alphanumeric escapes other than
the supported class shorthands, e.g. backreferences, are rejected). -/
def escAtom (c : Char) : Option Regex :=
  if c = 'd' then some (.cls false [.digitC])
  else if c = 'D' then some (.cls true [.digitC])
  else if c = 'w' then some (.cls false [.wordC])
  else if c = 'W' then some (.cls true [.wordC])
  else if c = 's' then some (.cls false [.spaceC])
  else if c = 'S' then some (.cls true [.spaceC])
  else if c = 'n' then some (.chr '\n')
  else if c = 't' then some (.chr '\t')
  else if c = 'r' then some (.chr '\r')
  else if c.isAlphanum then none
  else some (.chr c)

/-- Escaped item inside a character class. -/
def escClassItem (c : Char) : Option ClassItem :=
  if c = 'd' then some .digitC
  else if c = 'w' then some .wordC
  else if c = 's' then some .spaceC
  else if c = 'n' then some (.single '\n')
  else if c = 't' then some (.single '\t')
  else if c = 'r' then some (.single '\r')
  else if c.isAlphanum then none
  else some (.single c)

/-- Items of a character class up to the closing bracket. -/
def classItems : Nat → List Char → Option (List ClassItem × List Char)
  | 0, _ => none
  | fuel + 1, cs =>
    match cs with
    | [] => none
    | ']' :: t => some ([], t)
    | '\\' :: c :: t =>
      match escClassItem c with
      | none => none
      | some it => (classItems fuel t).map (fun p => (it :: p.1, p.2))
    | a :: '-' :: b :: t =>
      if b = ']' then
        (classItems fuel (']' :: t)).map (fun p => (.single a :: .single '-' :: p.1, p.2))
      else if b = '\\' then none
      else if a ≤ b then (classItems fuel t).map (fun p => (.range a b :: p.1, p.2))
      else none
    | a :: t => (classItems fuel t).map (fun p => (.single a :: p.1, p.2))

/-- A bracketed character class, after the opening bracket: optional
negation, then a leading literal close-bracket, then items. -/
def parseClass (fuel : Nat) (cs : List Char) : Option (Regex × List Char) :=
  let (neg, cs1) := match cs with
    | '^' :: t => (true, t)
    | _ => (false, cs)
  let (init, cs2) := match cs1 with
    | ']' :: t => ([ClassItem.single ']'], t)
    | _ => ([], cs1)
  (classItems fuel cs2).map (fun p => (Regex.cls neg (init ++ p.1), p.2))

/-- Brace quantifier body after the opening brace: low[,high]close. -/
def parseBrace (cs : List Char) : Option (Nat × Option Nat × List Char) :=
  let ds := cs.takeWhile Char.isDigit
  let r1 := cs.dropWhile Char.isDigit
  if ds = [] then none
  else
    match r1 with
    | '}' :: t => some (digitsNat ds, some (digitsNat ds), t)
    | ',' :: r2 =>
      let hs := r2.takeWhile Char.isDigit
      match r2.dropWhile Char.isDigit with
      | '}' :: t =>
        if hs = [] then some (digitsNat ds, none, t)
        else some (digitsNat ds, some (digitsNat hs), t)
      | _ => none
    | _ => none

/-- Postfix quantifier application (one quantifier, optional lazy marker;
an invalid brace leaves the brace to be read as a literal). -/
def applyQuant (r : Regex) (cs : List Char) : Option (Regex × List Char) :=
  match cs with
  | '*' :: '?' :: t => some (.star r, t)
  | '*' :: t => some (.star r, t)
  | '+' :: '?' :: t => some (.seq r (.star r), t)
  | '+' :: t => some (.seq r (.star r), t)
  | '?' :: '?' :: t => some (.alt r .emptyR, t)
  | '?' :: t => some (.alt r .emptyR, t)
  | '{' :: t =>
    match parseBrace t with
    | some (lo, some hi, rest) =>
      if lo ≤ hi then
        let rest2 := match rest with
          | '?' :: t2 => t2
          | _ => rest
        some (.seq (repN r lo) (optN r (hi - lo)), rest2)
      else none
    | some (lo, none, rest) =>
      let rest2 := match rest with
        | '?' :: t2 => t2
        | _ => rest
      some (.seq (repN r lo) (.star r), rest2)
    | none => some (r, cs)
  | _ => some (r, cs)

/-- Grammar level of the regex recursive-descent structure. -/
inductive PLevel where
  | altL
  | concatL
  | pieceL
  | atomL
deriving Repr

/-- The regex grammar, all levels in one fueled function (alternation over
concatenation over quantified pieces over atoms; groups recurse back to
the alternation level). -/
def parseR : Nat → PLevel → List Char → Option (Regex × List Char)
  | 0, _, _ => none
  | fuel + 1, .altL, cs =>
    (match parseR fuel .concatL cs with
     | none => none
     | some (r, rest) =>
       match rest with
       | '|' :: t =>
         (match parseR fuel .altL t with
          | some (r2, rest2) => some (.alt r r2, rest2)
          | none => none)
       | _ => some (r, rest))
  | fuel + 1, .concatL, cs =>
    (match cs with
     | [] => some (.emptyR, [])
     | ')' :: _ => some (.emptyR, cs)
     | '|' :: _ => some (.emptyR, cs)
     | _ =>
       match parseR fuel .pieceL cs with
       | none => none
       | some (r, rest) =>
         match parseR fuel .concatL rest with
         | some (r2, rest2) => some (.seq r r2, rest2)
         | none => none)
  | fuel + 1, .pieceL, cs =>
    (match parseR fuel .atomL cs with
     | none => none
     | some (r, rest) => applyQuant r rest)
  | fuel + 1, .atomL, cs =>
    (match cs with
     | [] => none
     | '(' :: '?' :: ':' :: u =>
       (match parseR fuel .altL u with
        | some (r, ')' :: rest) => some (r, rest)
        | _ => none)
     | '(' :: '?' :: _ => none
     | '(' :: t =>
       (match parseR fuel .altL t with
        | some (r, ')' :: rest) => some (r, rest)
        | _ => none)
     | '[' :: t => parseClass fuel t
     | '\\' :: c :: t => (escAtom c).map (fun r => (r, t))
     | '\\' :: [] => none
     | '^' :: t => some (.startAnchor, t)
     | '$' :: t => some (.endAnchor, t)
     | '.' :: t => some (.anyc, t)
     | '*' :: _ => none
     | '+' :: _ => none
     | '?' :: _ => none
     | ')' :: _ => none
     | c :: t => some (.chr c, t))

/-- re.compile of a pattern string: none models re.error. -/
def compileRegex (pattern : String) : Option Regex :=
  match parseR (pattern.length * 4 + 16) .altL pattern.data with
  | some (r, []) => some r
  | _ => none

/-- re.match(pattern, s): anchored-at-start search for a match of any
prefix; none models re.error on an invalid pattern. -/
def reMatchB (pattern input : String) : Option Bool :=
  match compileRegex pattern with
  | none => none
  | some r =>
    some (rmatch ((input.length + 2) * (rsize r + 2) + 16) r input.data 0 (fun _ _ => true))

end XlsVal

namespace XlsVal

/- ### Constraint evaluation -/

/-- Strip leading whitespace from a character list. -/
def stripWS (cs : List Char) : List Char := cs.dropWhile Char.isWhitespace

/-- Scan for the non-greedy close of the quoted pattern in the
regex-constraint form: the first quote character followed only by
whitespace, a closing parenthesis and the end of the string; returns the
captured pattern text. -/
def captureToClose : List Char → List Char → Option String
  | _, [] => none
  | acc, c :: rest =>
    if (c = '\x27' ∨ c = '"') ∧ stripWS rest = [')'] then some (String.mk acc.reverse)
    else captureToClose (c :: acc) rest

/-- Recognition of the regex-constraint dialect: full match of the anchored
pattern regex ( ws . ws , ws quote pattern quote ws ) against the stripped
constraint, returning the captured pattern. -/
def regexConstraintPattern (constraint : String) : Option String :=
  match trimChars constraint.data with
  | 'r' :: 'e' :: 'g' :: 'e' :: 'x' :: '(' :: rest =>
    match stripWS rest with
    | '.' :: r2 =>
      match stripWS r2 with
      | ',' :: r3 =>
        match stripWS r3 with
        | q :: r4 => if q = '\x27' ∨ q = '"' then captureToClose [] r4 else none
        | [] => none
      | _ => none
    | _ => none
  | _ => none

/-- Continuation of the digit-width heuristic after the digit class: an
opening brace, digits, and a closing brace. -/
def afterDigitClass (cs : List Char) : Option Nat :=
  match cs with
  | '{' :: rest =>
    let ds := rest.takeWhile Char.isDigit
    match rest.dropWhile Char.isDigit with
    | '}' :: _ => if ds ≠ [] then some (digitsNat ds) else none
    | _ => none
  | _ => none

/-- The zero-padding width heuristic of _validate_constraint: an optional
caret, an optional opening parenthesis, then a digit class with a braced
count at the start of the pattern. -/
def extractDigitWidth (p : String) : Option Nat :=
  let cs := p.data
  let cs1 := match cs with
    | '^' :: t => t
    | _ => cs
  let cs2 := match cs1 with
    | '(' :: t => t
    | _ => cs1
  match cs2 with
  | '[' :: '0' :: '-' :: '9' :: ']' :: rest => afterDigitClass rest
  | '\\' :: 'd' :: rest => afterDigitClass rest
  | _ => none

/-- Python zero-padded integer formatting to a minimum total width
(the sign counts toward the width and precedes the padding). -/
def zeroPad (n : Int) (width : Nat) : String :=
  let s := toString n.natAbs
  let sgnLen : Nat := if n < 0 then 1 else 0
  (if n < 0 then "-" else "") ++
    String.mk (List.replicate (width - (s.length + sgnLen)) '0') ++ s

/-- XPath number() applied to a string: optional minus sign, digits with
optional fraction; anything else is NaN, modelled as none. -/
def xpathStrToNum (s : String) : Option Dec :=
  match trimChars s.data with
  | '-' :: r =>
    (match parseXNum r with
     | some d => some (decNeg d)
     | none => none)
  | l => parseXNum l
where
  parseXNum (cs : List Char) : Option Dec :=
    let ds := cs.takeWhile Char.isDigit
    let r1 := cs.dropWhile Char.isDigit
    match r1 with
    | '.' :: r2 =>
      let fs := r2.takeWhile Char.isDigit
      match r2.dropWhile Char.isDigit with
      | [] =>
        if ds = [] ∧ fs = [] then none
        else some ⟨(digitsNat ds * 10 ^ fs.length + digitsNat fs : Nat), fs.length⟩
      | _ => none
    | [] => if ds = [] then none else some ⟨(digitsNat ds : Nat), 0⟩
    | _ => none

/-- Token of the modelled XPath 1.0 constraint expression language. -/
inductive XTok where
  | dot
  | num (d : Dec)
  | ltT | leT | gtT | geT | eqT | neT
  | andK | orK | notK
  | lpar | rpar
deriving DecidableEq, Repr

/-- Tokenizer for the modelled constraint expression language. -/
def xTokenize : Nat → List Char → Option (List XTok)
  | 0, _ => none
  | _ + 1, [] => some []
  | fuel + 1, c :: rest =>
    if c.isWhitespace then xTokenize fuel rest
    else if c = '(' then (xTokenize fuel rest).map (.lpar :: ·)
    else if c = ')' then (xTokenize fuel rest).map (.rpar :: ·)
    else if c = '<' then
      match rest with
      | '=' :: r2 => (xTokenize fuel r2).map (.leT :: ·)
      | _ => (xTokenize fuel rest).map (.ltT :: ·)
    else if c = '>' then
      match rest with
      | '=' :: r2 => (xTokenize fuel r2).map (.geT :: ·)
      | _ => (xTokenize fuel rest).map (.gtT :: ·)
    else if c = '=' then (xTokenize fuel rest).map (.eqT :: ·)
    else if c = '!' then
      match rest with
      | '=' :: r2 => (xTokenize fuel r2).map (.neT :: ·)
      | _ => none
    else if c = '.' ∧ (rest.headD ' ').isDigit then
      let fs := rest.takeWhile Char.isDigit
      let r2 := rest.dropWhile Char.isDigit
      (xTokenize fuel r2).map (.num ⟨(digitsNat fs : Nat), fs.length⟩ :: ·)
    else if c = '.' then (xTokenize fuel rest).map (.dot :: ·)
    else if c.isDigit then
      let ds := c :: rest.takeWhile Char.isDigit
      let r1 := rest.dropWhile Char.isDigit
      match r1 with
      | '.' :: r2 =>
        let fs := r2.takeWhile Char.isDigit
        let r3 := r2.dropWhile Char.isDigit
        (xTokenize fuel r3).map
          (.num ⟨(digitsNat ds * 10 ^ fs.length + digitsNat fs : Nat), fs.length⟩ :: ·)
      | _ => (xTokenize fuel r1).map (.num ⟨(digitsNat ds : Nat), 0⟩ :: ·)
    else if c = 'a' then
      match rest with
      | 'n' :: 'd' :: r2 => (xTokenize fuel r2).map (.andK :: ·)
      | _ => none
    else if c = 'o' then
      match rest with
      | 'r' :: r2 => (xTokenize fuel r2).map (.orK :: ·)
      | _ => none
    else if c = 'n' then
      match rest with
      | 'o' :: 't' :: r2 => (xTokenize fuel r2).map (.notK :: ·)
      | _ => none
    else none

/-- Value of the modelled XPath evaluation: a number (none inside is NaN),
a boolean, or the context node carrying the cell text. -/
inductive XVal where
  | numV (d : Option Dec)
  | boolV (b : Bool)
  | nodeV (text : String)
deriving Repr

/-- Numeric coercion of an XPath value. -/
def xToNum : XVal → Option Dec
  | .numV d => d
  | .boolV b => some ⟨if b then 1 else 0, 0⟩
  | .nodeV t => xpathStrToNum t

/-- Boolean coercion of an XPath value. -/
def xToBool : XVal → Bool
  | .numV (some d) => d.mant ≠ 0
  | .numV none => false
  | .boolV b => b
  | .nodeV t => t ≠ ""

/-- Relational comparison of XPath values by numeric coercion; a NaN
operand makes every relational comparison false. -/
def xCompare (op : XTok) (a b : XVal) : Option Bool :=
  match xToNum a, xToNum b with
  | some x, some y =>
    match op with
    | .ltT => some (decLt x y)
    | .leT => some (decLe x y)
    | .gtT => some (decLt y x)
    | .geT => some (decLe y x)
    | .eqT => some (decEqv x y)
    | .neT => some (! decEqv x y)
    | _ => none
  | _, _ =>
    match op with
    | .neT => some true
    | .ltT | .leT | .gtT | .geT | .eqT => some false
    | _ => none

/-- Call tag for the modelled XPath expression grammar: either enter a
grammar level, or continue a left-associative operator chain at that
level with an accumulated value. -/
inductive XCall where
  | orE
  | andE
  | eqE
  | relE
  | primE
  | orChain (acc : XVal)
  | andChain (acc : XVal)
  | eqChain (acc : XVal)
  | relChain (acc : XVal)

/-- The modelled XPath expression grammar, all levels in one fueled
function: or over and over equality over relational over primary, each
binary level folding its operator chain left to right. -/
def xRun : Nat → XCall → String → List XTok → Option (XVal × List XTok)
  | 0, _, _, _ => none
  | fuel + 1, .orE, ctx, ts =>
    (match xRun fuel .andE ctx ts with
     | none => none
     | some (v, rest) => xRun fuel (.orChain v) ctx rest)
  | fuel + 1, .orChain v, ctx, ts =>
    (match ts with
     | .orK :: t2 =>
       (match xRun fuel .andE ctx t2 with
        | none => none
        | some (v2, rest) => xRun fuel (.orChain (.boolV (xToBool v || xToBool v2))) ctx rest)
     | _ => some (v, ts))
  | fuel + 1, .andE, ctx, ts =>
    (match xRun fuel .eqE ctx ts with
     | none => none
     | some (v, rest) => xRun fuel (.andChain v) ctx rest)
  | fuel + 1, .andChain v, ctx, ts =>
    (match ts with
     | .andK :: t2 =>
       (match xRun fuel .eqE ctx t2 with
        | none => none
        | some (v2, rest) => xRun fuel (.andChain (.boolV (xToBool v && xToBool v2))) ctx rest)
     | _ => some (v, ts))
  | fuel + 1, .eqE, ctx, ts =>
    (match xRun fuel .relE ctx ts with
     | none => none
     | some (v, rest) => xRun fuel (.eqChain v) ctx rest)
  | fuel + 1, .eqChain v, ctx, ts =>
    (match ts with
     | op :: t2 =>
       if op = .eqT ∨ op = .neT then
         match xRun fuel .relE ctx t2 with
         | none => none
         | some (v2, rest) =>
           match xCompare op v v2 with
           | some b => xRun fuel (.eqChain (.boolV b)) ctx rest
           | none => none
       else some (v, ts)
     | [] => some (v, ts))
  | fuel + 1, .relE, ctx, ts =>
    (match xRun fuel .primE ctx ts with
     | none => none
     | some (v, rest) => xRun fuel (.relChain v) ctx rest)
  | fuel + 1, .relChain v, ctx, ts =>
    (match ts with
     | op :: t2 =>
       if op = .ltT ∨ op = .leT ∨ op = .gtT ∨ op = .geT then
         match xRun fuel .primE ctx t2 with
         | none => none
         | some (v2, rest) =>
           match xCompare op v v2 with
           | some b => xRun fuel (.relChain (.boolV b)) ctx rest
           | none => none
       else some (v, ts)
     | [] => some (v, ts))
  | fuel + 1, .primE, ctx, ts =>
    (match ts with
     | .lpar :: t2 =>
       (match xRun fuel .orE ctx t2 with
        | some (v, .rpar :: rest) => some (v, rest)
        | _ => none)
     | .dot :: rest => some (.nodeV ctx, rest)
     | .num d :: rest => some (.numV (some d), rest)
     | .notK :: .lpar :: t2 =>
       (match xRun fuel .orE ctx t2 with
        | some (v, .rpar :: rest) => some (.boolV (! xToBool v), rest)
        | _ => none)
     | _ => none)

/-- Modelled from the spec: the external XPath 1.0 library call of
_evaluate_xpath_constraint (parser construction, expression parse and
evaluation against a context node whose text is the stringified value).
The spec describes the expression dialect as relational and logical
operators over the placeholder dot and numeric literals; none models an
exception raised anywhere inside the library call. -/
def evalConstraintExprB (expression : String) (nodeText : String) : Option Bool :=
  match xTokenize (expression.length + 1) expression.data with
  | none => none
  | some toks =>
    match xRun (toks.length * 8 + 32) .orE nodeText toks with
    | some (v, []) => some (xToBool v)
    | _ => none

/-- _evaluate_xpath_constraint: evaluate the expression against a fake
node carrying the stringified value; any exception yields False. -/
def evaluateXPathConstraint (expression : String) (valueText : String) : Bool :=
  (evalConstraintExprB expression valueText).getD false

/-- _validate_constraint: regex dialect with the numeric zero-padding
heuristic, otherwise type-directed coercion followed by expression
evaluation. -/
def validateConstraint (V : Validator) (value : CellValue) (constraint question_name : String) :
    Option String :=
  match regexConstraintPattern constraint with
  | some pattern_str =>
    let str_value :=
      match value with
      | .intV n =>
        (match extractDigitWidth pattern_str with
         | some w => zeroPad n w
         | none => toString n)
      | .floatV d =>
        (match extractDigitWidth pattern_str with
         | some w => zeroPad (decTrunc d) w
         | none => if decIsIntegral d then toString (decTrunc d) else decRepr d)
      | _ => pyStrCell value
    (match reMatchB pattern_str str_value with
     | none => some ("Invalid regex pattern in constraint \x27" ++ constraint ++ "\x27")
     | some false => some ("Constraint \x27" ++ constraint ++ "\x27 is not satisfied for value \x27" ++
         pyStrCell value ++ "\x27")
     | some true => none)
  | none =>
    let qt := dlookup V.question_types question_name
    let finish := fun (pv : CellValue) =>
      if evaluateXPathConstraint constraint (pyStrCell pv) then none
      else some ("Constraint \x27" ++ constraint ++ "\x27 is not satisfied for value \x27" ++
        pyStrCell value ++ "\x27")
    if qt = some "integer" then
      match pyIntOfCell value with
      | none => some ("Cannot validate constraint for non-integer value \x27" ++
          pyStrCell value ++ "\x27")
      | some n => finish (.intV n)
    else if qt = some "decimal" then
      match pyFloatOfCell value with
      | none => some ("Cannot validate constraint for non-decimal value \x27" ++
          pyStrCell value ++ "\x27")
      | some d => finish (.floatV d)
    else finish value

/- ### Error records and the orchestrator -/

/-- The error-type constants of validation.py. -/
def kTypeMismatch : String := "type_mismatch"

/-- ERROR_CONSTRAINT_UNSATISFIED of validation.py. -/
def kConstraintUnsatisfied : String := "error_constraint_unsatisfied"

/-- ERROR_VALUE_REQUIRED of validation.py. -/
def kValueRequired : String := "error_value_required"

/-- One validation error record (line, column, error type, explanation,
question name), as appended by _validate_spreadsheet_data. -/
structure ValidationError where
  line : Nat
  column : Nat
  error_type : String
  error_explanation : String
  question_name : String
deriving DecidableEq, Repr

/-- The per-cell body of the row scan of _validate_spreadsheet_data: the
empty-marker/required check, then the type check, then the constraint
check, producing at most one error for the cell. -/
def cellError (V : Validator) (question_name question_type : String) (value : CellValue)
    (line col : Nat) : Option ValidationError :=
  if isNA value then
    if question_name ∈ V.required_questions then
      some ⟨line, col, kValueRequired,
        "Value is required for question \x27" ++ question_name ++ "\x27", question_name⟩
    else none
  else
    match validateType V value question_type question_name (extractListName question_type) with
    | some msg => some ⟨line, col, kTypeMismatch, msg, question_name⟩
    | none =>
      match dlookup V.question_constraints question_name with
      | some c =>
        (match validateConstraint V value c question_name with
         | some msg => some ⟨line, col, kConstraintUnsatisfied, msg, question_name⟩
         | none => none)
      | none => none

/-- The record appended by _validate_headers for the unresolved header at
0-based column index i: line 1, 1-based column, the type-mismatch error
constant, and the header as the question name. -/
def mkHeaderError (i : Nat) (column : String) : ValidationError :=
  ⟨1, i + 1, kTypeMismatch,
    "Column header \x27" ++ column ++ "\x27 does not match any question name or label in the XLSForm",
    column⟩

/-- _validate_headers: one error per column header that resolves to
neither a question name nor a label, at line 1 and the 1-based column. -/
def validateHeaders (V : Validator) (columns : List String) : List ValidationError :=
  columns.enum.filterMap fun p =>
    if (resolveColumn V p.2).isNone then some (mkHeaderError p.1 p.2) else none

/-- The tabular data: a header row and data rows of scalar cells (pandas
delivers a value for every header column, missing cells as the NaN
marker, modelled by padding short rows). -/
structure DataFrame where
  headers : List String
  rows : List (List CellValue)

/-- The value series of one column. -/
def colValues (df : DataFrame) (i : Nat) : List CellValue :=
  df.rows.map (fun r => r.getD i .na)

/-- Errors contributed by one resolvable column of the row scan: the cell
check at line rowIdx+2 and column colIdx+1 for each data row. -/
def columnErrors (V : Validator) (df : DataFrame) (colIdx : Nat) (column : String) :
    List ValidationError :=
  match resolveColumn V column with
  | none => []
  | some qname =>
    let qtype := (dlookup V.question_types qname).getD ""
    (colValues df colIdx).enum.filterMap (fun p => cellError V qname qtype p.2 (p.1 + 2) (colIdx + 1))

/-- _validate_spreadsheet_data: header check with early return, then the
column-outer row-inner scan. -/
def validateSpreadsheetData (V : Validator) (df : DataFrame) : List ValidationError :=
  let headerErrors := validateHeaders V df.headers
  if headerErrors.isEmpty then
    df.headers.enum.flatMap (fun p => columnErrors V df p.1 p.2)
  else headerErrors

/- ### Process runner (src/xlsform_validator/odk_validate/utils.py) -/

/-- Timed abstraction of one external process for run_popen_with_timeout:
the instant (in abstract time units) at which it exits on its own, none if
it runs forever, and whether a SIGTERM makes it exit immediately. -/
structure ProcBehavior where
  natExit : Option Nat
  exitsOnTerm : Bool

/-- Outcome of the timed run: the kill_check flag reported as the timeout
field, and the instant at which p.communicate returns to the caller, none
if it never does. -/
structure TimedRunOutcome where
  timedOut : Bool
  unblockTime : Option Nat
deriving DecidableEq, Repr

/-- run_popen_with_timeout as a timed model: a watchdog timer fires at the
timeout instant if the process has not already exited, sends a single
SIGTERM and sets the kill flag; the main thread blocks on communicate
until the process exits (at its natural exit instant, at the timeout
instant if it honours SIGTERM, or never if it ignores SIGTERM and runs
forever).  No SIGKILL escalation exists in the source. -/
def run_popen_with_timeout (p : ProcBehavior) (timeout : Nat) : TimedRunOutcome :=
  match p.natExit with
  | some t =>
    if t < timeout then ⟨false, some t⟩
    else if p.exitsOnTerm then ⟨true, some timeout⟩
    else ⟨true, some t⟩
  | none =>
    if p.exitsOnTerm then ⟨true, some timeout⟩
    else ⟨true, none⟩

/- ### Output decoding (decode_stream) -/

/-- Whether a byte is a UTF-8 continuation byte within the given range. -/
def contIn (lo hi : Nat) (c : Fin 256) : Bool :=
  decide (lo ≤ c.val) && decide (c.val ≤ hi)

/-- Strict UTF-8 decoding of a byte sequence into code points: rejects
invalid start bytes, truncated sequences, overlong encodings, surrogates
and values above 0x10FFFF, exactly as the strict utf-8 codec does. -/
def utf8Decode : List (Fin 256) → Option (List Nat)
  | [] => some []
  | b :: r =>
    let n := b.val
    if n < 0x80 then (utf8Decode r).map (n :: ·)
    else if 0xC2 ≤ n ∧ n ≤ 0xDF then
      match r with
      | c1 :: r2 =>
        if contIn 0x80 0xBF c1 then
          (utf8Decode r2).map (((n - 0xC0) * 0x40 + (c1.val - 0x80)) :: ·)
        else none
      | [] => none
    else if 0xE0 ≤ n ∧ n ≤ 0xEF then
      let lo1 := if n = 0xE0 then 0xA0 else 0x80
      let hi1 := if n = 0xED then 0x9F else 0xBF
      match r with
      | c1 :: c2 :: r2 =>
        if contIn lo1 hi1 c1 ∧ contIn 0x80 0xBF c2 then
          (utf8Decode r2).map
            (((n - 0xE0) * 0x1000 + (c1.val - 0x80) * 0x40 + (c2.val - 0x80)) :: ·)
        else none
      | _ => none
    else if 0xF0 ≤ n ∧ n ≤ 0xF4 then
      let lo1 := if n = 0xF0 then 0x90 else 0x80
      let hi1 := if n = 0xF4 then 0x8F else 0xBF
      match r with
      | c1 :: c2 :: c3 :: r2 =>
        if contIn lo1 hi1 c1 ∧ contIn 0x80 0xBF c2 ∧ contIn 0x80 0xBF c3 then
          (utf8Decode r2).map
            (((n - 0xF0) * 0x40000 + (c1.val - 0x80) * 0x1000 +
              (c2.val - 0x80) * 0x40 + (c3.val - 0x80)) :: ·)
        else none
      | _ => none
    else none

/-- Latin-1 decoding of one byte sequence: every byte maps to the code
point of the same value; total by construction. -/
def latin1Decode (bs : List (Fin 256)) : List Nat :=
  bs.map (fun b => b.val)

/-- Latin-1 decoding wrapped in the fallible shape of the source's try
block (the except branch of the source corresponds to none). -/
def latin1DecodeOpt (bs : List (Fin 256)) : Option (List Nat) :=
  some (latin1Decode bs)

/-- Result of decode_stream: the decoded code points, or the raised
OSError when both decodings fail. -/
inductive DecodeResult where
  | ok (codepoints : List Nat)
  | oserr
deriving DecidableEq, Repr

/-- decode_stream: try utf-8, on failure try latin-1, raise OSError only
if both fail. -/
def decode_stream (bs : List (Fin 256)) : DecodeResult :=
  match utf8Decode bs with
  | some s => .ok s
  | none =>
    match latin1DecodeOpt bs with
    | some s => .ok s
    | none => .oserr

end XlsVal

namespace XlsVal

/- ### Derived definitions used by the verification statements -/

/-- The constraint-unsatisfied explanation produced by
_validate_constraint (identical text in both constraint dialects). -/
def unsatMsg (constraint : String) (value : CellValue) : String :=
  "Constraint \x27" ++ constraint ++ "\x27 is not satisfied for value \x27" ++
    pyStrCell value ++ "\x27"

/-- The cannot-validate explanation of the integer coercion failure. -/
def cannotIntMsg (value : CellValue) : String :=
  "Cannot validate constraint for non-integer value \x27" ++ pyStrCell value ++ "\x27"

/-- The cannot-validate explanation of the decimal coercion failure. -/
def cannotDecMsg (value : CellValue) : String :=
  "Cannot validate constraint for non-decimal value \x27" ++ pyStrCell value ++ "\x27"

/-- The required-value explanation of the row scan. -/
def requiredMsg (question_name : String) : String :=
  "Value is required for question \x27" ++ question_name ++ "\x27"

/-- The type-directed coercion preceding expression-constraint evaluation
(lines 539 to 549 of validation.py): int for integer questions, float for
decimal questions, the raw value otherwise; none models the raised
ValueError. -/
def coerceForConstraint (V : Validator) (value : CellValue) (question_name : String) :
    Option CellValue :=
  let qt := dlookup V.question_types question_name
  if qt = some "integer" then (pyIntOfCell value).map .intV
  else if qt = some "decimal" then (pyFloatOfCell value).map .floatV
  else some value

/-- Whether a select-type question has no usable choice list: no list name
after the select keyword, an empty (falsy) list name, or a list name
absent from the choice-list mapping. -/
def noChoiceList (V : Validator) (question_type : String) : Bool :=
  match extractListName question_type with
  | none => true
  | some ln => ln = "" || (dlookup V.choice_lists ln).isNone

/-- The alias keys of a choice list, lowercased, as consulted by
_validate_type. -/
def aliasKeysLower (V : Validator) (ln : String) : List String :=
  match dlookup V.choice_aliases ln with
  | some al => al.map (fun p => strLower p.1)
  | none => []

/-- Strict column-major order on error records: earlier column, or same
column and earlier line. -/
def colMajorLt (a b : ValidationError) : Prop :=
  a.column < b.column ∨ (a.column = b.column ∧ a.line < b.line)

instance (a b : ValidationError) : Decidable (colMajorLt a b) := by
  unfold colMajorLt; infer_instance

/- ### Concrete instances for the end-to-end scenarios -/

/-- Scenario A schema: one integer question age, required, with the
constraint dot-less-than-150. -/
def vAge : Validator := ⟨[("age", "integer")], [("age", ". < 150")], ["age"], [], [], []⟩

/-- Scenario A data: single header age, one row holding 200. -/
def dfAge : DataFrame := ⟨["age"], [[.intV 200]]⟩

/-- The single error record scenario A produces. -/
def c1err : ValidationError :=
  ⟨2, 1, kConstraintUnsatisfied, unsatMsg ". < 150" (.intV 200), "age"⟩

/-- Scenario D data: one header matching nothing, two data rows. -/
def dfBadHeader : DataFrame := ⟨["zzz"], [[.intV 1], [.intV 2]]⟩

/-- Ordering-scenario schema: two unconstrained integer questions. -/
def vOrd : Validator := ⟨[("a", "integer"), ("b", "integer")], [], [], [], [], []⟩

/-- Ordering-scenario data: the type errors sit at line 3 column 1 and at
line 2 column 2, so a row-major order would have to put the line 2 error
first. -/
def dfOrd : DataFrame := ⟨["a", "b"], [[.intV 1, .strV "x"], [.strV "y", .intV 2]]⟩

/-- Gender schema: a select_one question over a list with canonical value
male and alias man. -/
def vGender : Validator :=
  ⟨[("gender", "select_one g")], [], [], [("g", ["male"])], [], [("g", [("man", "male")])]⟩

/-- Schema with a single integer question, for the expression-constraint
witness. -/
def vNum : Validator := ⟨[("n", "integer")], [], [], [], [], []⟩

/-- The zero-padding regex constraint of the spec scenario. -/
def zipConstraint : String := "regex(., \x27^([0-9]{5})$\x27)"

end XlsVal

namespace XlsVal

/- ### Theorems -/

/-- C3: for an empty (NaN/blank) cell the row scan emits exactly the
value-required error when the question is required and nothing otherwise,
and any error it emits for an empty cell carries the value-required kind,
so neither the type check nor the constraint check ever contributes an
error for an empty cell. -/
theorem c3_empty_cell (V : Validator) (question_name question_type : String) (line col : Nat) :
    cellError V question_name question_type .na line col =
      (if question_name ∈ V.required_questions then
        some ⟨line, col, kValueRequired, requiredMsg question_name, question_name⟩
       else none) ∧
    ∀ e, cellError V question_name question_type .na line col = some e →
      e.error_type = kValueRequired := by
  constructor
  · by_cases hq : question_name ∈ V.required_questions <;>
      simp [cellError, isNA, requiredMsg, hq]
  · intro e he
    by_cases hq : question_name ∈ V.required_questions <;>
      simp [cellError, isNA, hq] at he
    rw [← he]

/-- Witness for C3 at a concrete required integer question: the empty
cell yields exactly the value-required error. -/
theorem c3_empty_cell_witness :
    (cellError vAge "age" "integer" .na 2 1 =
      (if "age" ∈ vAge.required_questions then
        some ⟨2, 1, kValueRequired, requiredMsg "age", "age"⟩
       else none) ∧
     ∀ e, cellError vAge "age" "integer" .na 2 1 = some e →
       e.error_type = kValueRequired) ∧
    cellError vAge "age" "integer" .na 2 1 =
      some ⟨2, 1, kValueRequired, requiredMsg "age", "age"⟩ :=
  ⟨c3_empty_cell vAge "age" "integer" 2 1, by decide⟩

/-- C9: decode_stream first attempts utf-8 and returns its decoding when
it succeeds, falls back to latin-1 when utf-8 fails, raises the OSError
exactly when both decodings fail, and the latin-1 fallback loses no
information (it is injective on byte sequences). -/
theorem c9_decode (bs : List (Fin 256)) :
    (∀ s, utf8Decode bs = some s → decode_stream bs = .ok s) ∧
    (utf8Decode bs = none → decode_stream bs = .ok (latin1Decode bs)) ∧
    (decode_stream bs = .oserr ↔ utf8Decode bs = none ∧ latin1DecodeOpt bs = none) ∧
    (∀ bs2 : List (Fin 256), latin1Decode bs = latin1Decode bs2 → bs = bs2) := by
  refine ⟨?_, ?_, ?_, ?_⟩
  · intro s hs
    unfold decode_stream
    rw [hs]
  · intro h
    unfold decode_stream
    rw [h]
    rfl
  · constructor
    · intro h
      unfold decode_stream at h
      cases hu : utf8Decode bs with
      | some s => rw [hu] at h; exact absurd h (by simp)
      | none => rw [hu] at h; exact absurd h (by simp [latin1DecodeOpt])
    · rintro ⟨-, h2⟩
      exact absurd h2 (by simp [latin1DecodeOpt])
  · intro bs2 h
    exact List.map_injective_iff.mpr Fin.val_injective h

/-- Witness for C9 at concrete byte sequences: a valid utf-8 pair decodes
through the utf-8 path, and an invalid utf-8 byte falls back to latin-1. -/
theorem c9_decode_witness :
    utf8Decode [(0xC3 : Fin 256), 0xA9] = some [233] ∧
    decode_stream [(0xC3 : Fin 256), 0xA9] = .ok [233] ∧
    utf8Decode [(0xFF : Fin 256)] = none ∧
    decode_stream [(0xFF : Fin 256)] = .ok (latin1Decode [(0xFF : Fin 256)]) :=
  ⟨by decide, (c9_decode _).1 [233] (by decide), by decide, (c9_decode _).2.1 (by decide)⟩

/-- C8 counterexample: for a process that ignores SIGTERM and never exits
on its own, the caller of run_popen_with_timeout is blocked forever, so
the claim that the call never blocks beyond the timeout fails. -/
theorem c8_counterexample :
    (run_popen_with_timeout ⟨none, false⟩ 5).unblockTime = none ∧
    ¬ ∃ u, (run_popen_with_timeout ⟨none, false⟩ 5).unblockTime = some u ∧ u ≤ 5 := by
  refine ⟨rfl, ?_⟩
  rintro ⟨u, hu, -⟩
  simp [run_popen_with_timeout] at hu

/-- C8 amended: the runner reports timedOut exactly when the process has
not exited strictly before the timeout (the watchdog then fires and sends
one SIGTERM), and the caller is unblocked by the timeout instant whenever
the process honours SIGTERM; no guarantee exists when it does not. -/
theorem c8_amended (p : ProcBehavior) (tmo : Nat) :
    ((run_popen_with_timeout p tmo).timedOut = true ↔
      ¬ ∃ t, p.natExit = some t ∧ t < tmo) ∧
    (p.exitsOnTerm = true →
      ∃ u, (run_popen_with_timeout p tmo).unblockTime = some u ∧ u ≤ tmo) := by
  obtain ⟨ne, et⟩ := p
  cases ne with
  | none =>
    cases et <;> simp [run_popen_with_timeout]
  | some t =>
    by_cases hlt : t < tmo
    · cases et <;> simp [run_popen_with_timeout, hlt]
      omega
    · cases et <;> simp [run_popen_with_timeout, hlt] <;> omega

/-- Witness for C8 amended: a process exiting naturally at instant 10
under a timeout of 5, honouring SIGTERM, unblocks the caller by 5. -/
theorem c8_amended_witness :
    (⟨some 10, true⟩ : ProcBehavior).exitsOnTerm = true ∧
    ∃ u, (run_popen_with_timeout ⟨some 10, true⟩ 5).unblockTime = some u ∧ u ≤ 5 :=
  ⟨rfl, (c8_amended ⟨some 10, true⟩ 5).2 rfl⟩

/-- C10: a select_one or select_multiple question whose type string
carries no usable list name, or whose list name is absent from the
choice-list mapping, passes type checking for every value. -/
theorem c10_missing_list (V : Validator) (value : CellValue)
    (question_type question_name : String)
    (hsel : strStartsWith question_type "select_one" = true ∨
      strStartsWith question_type "select_multiple" = true)
    (hns : noChoiceList V question_type = true) :
    validateType V value question_type question_name (extractListName question_type) = none := by
  have hint : question_type ≠ "integer" := by
    rintro rfl
    rcases hsel with h | h <;> exact absurd h (by decide)
  have hdec : question_type ≠ "decimal" := by
    rintro rfl
    rcases hsel with h | h <;> exact absurd h (by decide)
  unfold validateType
  rw [if_neg hint, if_neg hdec]
  unfold noChoiceList at hns
  by_cases h1 : strStartsWith question_type "select_one" = true
  · rw [if_pos h1]
    cases hE : extractListName question_type with
    | none => rfl
    | some ln =>
      have hns2 : ln = "" ∨ dlookup V.choice_lists ln = none := by
        rw [hE] at hns
        simpa using hns
      rcases hns2 with hns2 | hns2 <;> simp [hns2]
  · rw [if_neg h1]
    have h2 : strStartsWith question_type "select_multiple" = true := by
      rcases hsel with h | h
      · exact absurd h h1
      · exact h
    rw [if_pos h2]
    cases hE : extractListName question_type with
    | none => rfl
    | some ln =>
      have hns2 : ln = "" ∨ dlookup V.choice_lists ln = none := by
        rw [hE] at hns
        simpa using hns
      rcases hns2 with hns2 | hns2 <;> simp [hns2]

/-- Witness for C10: a select_one type naming a list absent from the
schema accepts an arbitrary value. -/
theorem c10_missing_list_witness :
    (strStartsWith "select_one missing" "select_one" = true ∨
      strStartsWith "select_one missing" "select_multiple" = true) ∧
    noChoiceList vNum "select_one missing" = true ∧
    validateType vNum (.strV "whatever") "select_one missing" "q"
      (extractListName "select_one missing") = none :=
  ⟨Or.inl (by decide), by decide,
    c10_missing_list vNum (.strV "whatever") "select_one missing" "q"
      (Or.inl (by decide)) (by decide)⟩

end XlsVal

namespace XlsVal

/-- Schema with a single free-text question, for the regex-constraint
scenario. -/
def vZip : Validator := ⟨[("zip", "text")], [], [], [], [], []⟩

/-- C1 counterexample: scenario A produces exactly one error at line 2,
column 1, but its error_type field is the string
error_constraint_unsatisfied, not constraint_unsatisfied, so the claim as
stated fails on the code. -/
theorem c1_counterexample :
    validateSpreadsheetData vAge dfAge = [c1err] ∧
    ¬ ∃ e, validateSpreadsheetData vAge dfAge = [e] ∧
      e.error_type = "constraint_unsatisfied" ∧ e.line = 2 ∧ e.column = 1 := by
  refine ⟨by decide, ?_⟩
  rintro ⟨e, hl, ht, -, -⟩
  have h1 : validateSpreadsheetData vAge dfAge = [c1err] := by decide
  rw [h1] at hl
  have he : c1err = e := by injection hl
  rw [← he] at ht
  exact absurd ht (by decide)

/-- C1 amended: scenario A (integer question age, required, constraint
dot-less-than-150, one data row with value 200) yields exactly one error,
whose error_type is the ERROR_CONSTRAINT_UNSATISFIED constant
error_constraint_unsatisfied, at line 2 and column 1. -/
theorem c1_amended :
    validateSpreadsheetData vAge dfAge = [c1err] ∧
    c1err.error_type = kConstraintUnsatisfied ∧ c1err.line = 2 ∧ c1err.column = 1 := by
  refine ⟨by decide, rfl, rfl, rfl⟩

/-- C5: the regex constraint with a five-digit class accepts the numeric
value 1652 (padded to 01652), the numeric value 123 (padded to 00123) and
the already padded string 01234; the padding width is read off the
pattern. -/
theorem c5_regex_padding :
    regexConstraintPattern zipConstraint = some "^([0-9]{5})$" ∧
    extractDigitWidth "^([0-9]{5})$" = some 5 ∧
    zeroPad 1652 5 = "01652" ∧ zeroPad 123 5 = "00123" ∧
    validateConstraint vZip (.floatV ⟨1652, 0⟩) zipConstraint "zip" = none ∧
    validateConstraint vZip (.floatV ⟨123, 0⟩) zipConstraint "zip" = none ∧
    validateConstraint vZip (.strV "01234") zipConstraint "zip" = none := by
  exact ⟨by decide, by decide, by decide, by decide, by decide, by decide, by decide⟩

/-- C2 counterexample: a header matching nothing yields one error, but
its error_type field is the type_mismatch string, not a
header_unresolved kind, so the claim as stated fails on the code. -/
theorem c2_counterexample :
    validateSpreadsheetData vAge dfBadHeader = [mkHeaderError 0 "zzz"] ∧
    ¬ ∃ e ∈ validateSpreadsheetData vAge dfBadHeader, e.error_type = "header_unresolved" := by
  refine ⟨by decide, ?_⟩
  rintro ⟨e, hm, ht⟩
  have h1 : validateSpreadsheetData vAge dfBadHeader = [mkHeaderError 0 "zzz"] := by decide
  rw [h1] at hm
  have he : e = mkHeaderError 0 "zzz" := by simpa using hm
  rw [he] at ht
  exact absurd ht (by decide)

/-- Length of the header-error list equals the number of unresolved
headers. -/
theorem validateHeaders_length (V : Validator) :
    ∀ (cols : List String) (k : Nat),
      ((cols.enumFrom k).filterMap (fun p =>
        if (resolveColumn V p.2).isNone then some (mkHeaderError p.1 p.2) else none)).length =
      (cols.filter (fun x => (resolveColumn V x).isNone)).length := by
  intro cols
  induction cols with
  | nil => intro k; rfl
  | cons c t ih =>
    intro k
    have he : (c :: t).enumFrom k = (k, c) :: t.enumFrom (k + 1) := rfl
    rw [he, List.filterMap_cons, List.filter_cons]
    by_cases hc : (resolveColumn V c).isNone = true
    · simp only [hc, if_true, List.length_cons]
      simpa using ih (k + 1)
    · simp only [hc, if_false, Bool.false_eq_true]
      simpa using ih (k + 1)

/-- C2 amended: when at least one header is unresolved the run returns
exactly the header-error list: one type_mismatch-kind error per
unresolved header at line 1 and that header's 1-based column, and zero
row-level errors (every produced error sits at line 1). -/
theorem c2_amended (V : Validator) (df : DataFrame)
    (h : ∃ x ∈ df.headers, resolveColumn V x = none) :
    validateSpreadsheetData V df = validateHeaders V df.headers ∧
    validateHeaders V df.headers =
      df.headers.enum.filterMap (fun p =>
        if (resolveColumn V p.2).isNone then some (mkHeaderError p.1 p.2) else none) ∧
    (validateSpreadsheetData V df).length =
      (df.headers.filter (fun x => (resolveColumn V x).isNone)).length ∧
    ∀ e ∈ validateSpreadsheetData V df, e.line = 1 ∧ e.error_type = kTypeMismatch := by
  have hne : validateHeaders V df.headers ≠ [] := by
    obtain ⟨x, hx, hres⟩ := h
    intro hnil
    rw [validateHeaders, List.filterMap_eq_nil_iff] at hnil
    have hx2 : x ∈ List.map Prod.snd df.headers.enum := by
      rw [List.enum_map_snd]
      exact hx
    obtain ⟨p, hp, hps⟩ := List.mem_map.mp hx2
    have hcontra := hnil p hp
    rw [hps, hres] at hcontra
    simp at hcontra
  have h1 : validateSpreadsheetData V df = validateHeaders V df.headers := by
    unfold validateSpreadsheetData
    simp [List.isEmpty_iff, hne]
  refine ⟨h1, rfl, ?_, ?_⟩
  · rw [h1, validateHeaders]
    exact validateHeaders_length V df.headers 0
  · intro e he
    rw [h1, validateHeaders] at he
    obtain ⟨p, hp, hpe⟩ := List.mem_filterMap.mp he
    by_cases hres : (resolveColumn V p.2).isNone = true
    · rw [if_pos hres] at hpe
      have : mkHeaderError p.1 p.2 = e := by injection hpe
      rw [← this]
      exact ⟨rfl, rfl⟩
    · rw [if_neg hres] at hpe
      exact Option.noConfusion hpe

/-- Witness for C2 amended at the scenario D instance. -/
theorem c2_amended_witness :
    (∃ x ∈ dfBadHeader.headers, resolveColumn vAge x = none) ∧
    validateSpreadsheetData vAge dfBadHeader = validateHeaders vAge dfBadHeader.headers ∧
    ∀ e ∈ validateSpreadsheetData vAge dfBadHeader, e.line = 1 ∧ e.error_type = kTypeMismatch :=
  ⟨⟨"zzz", by decide, by decide⟩,
    (c2_amended vAge dfBadHeader ⟨"zzz", by decide, by decide⟩).1,
    (c2_amended vAge dfBadHeader ⟨"zzz", by decide, by decide⟩).2.2.2⟩

/-- Any error the cell check produces carries the line and column it was
called with. -/
theorem cellError_fields (V : Validator) (qn qt : String) (v : CellValue) (l c : Nat)
    (e : ValidationError) (h : cellError V qn qt v l c = some e) :
    e.line = l ∧ e.column = c := by
  unfold cellError at h
  repeat' split at h
  all_goals first
    | exact Option.noConfusion h
    | (injection h with h2; rw [← h2]; exact ⟨rfl, rfl⟩)

/-- The enumeration of a list is strictly increasing in its indices. -/
theorem pairwise_fst_lt_enumFrom {α : Type} (l : List α) (k : Nat) :
    (l.enumFrom k).Pairwise (fun p q => p.1 < q.1) := by
  induction l generalizing k with
  | nil => exact List.Pairwise.nil
  | cons a t ih =>
    refine List.Pairwise.cons ?_ (ih (k + 1))
    rintro ⟨i, x⟩ hq
    have hb := (List.mem_enumFrom hq).1
    omega

/-- Every error of one column of the row scan carries that column's
1-based number. -/
theorem columnErrors_column (V : Validator) (df : DataFrame) (i : Nat) (h : String)
    (e : ValidationError) (he : e ∈ columnErrors V df i h) : e.column = i + 1 := by
  unfold columnErrors at he
  cases hres : resolveColumn V h with
  | none => rw [hres] at he; exact absurd he (by simp)
  | some qn =>
    rw [hres] at he
    obtain ⟨p, hp, hcell⟩ := List.mem_filterMap.mp he
    exact (cellError_fields V qn _ p.2 (p.1 + 2) (i + 1) e hcell).2

/-- Within one column the errors of the row scan are strictly ordered by
line. -/
theorem columnErrors_pairwise (V : Validator) (df : DataFrame) (i : Nat) (h : String) :
    (columnErrors V df i h).Pairwise colMajorLt := by
  unfold columnErrors
  cases resolveColumn V h with
  | none => exact List.Pairwise.nil
  | some qn =>
    refine List.pairwise_filterMap.mpr ?_
    refine (pairwise_fst_lt_enumFrom _ 0).imp ?_
    intro p q hpq b hb b2 hb2
    have h1 := cellError_fields V qn _ p.2 (p.1 + 2) (i + 1) b hb
    have h2 := cellError_fields V qn _ q.2 (q.1 + 2) (i + 1) b2 hb2
    right
    refine ⟨by rw [h1.2, h2.2], ?_⟩
    rw [h1.1, h2.1]
    omega

/-- C7 counterexample: a table whose only errors sit at line 3 column 1
and line 2 column 2 is reported with the line 3 error first, so the error
list is not ordered by a row-major traversal. -/
theorem c7_counterexample :
    ¬ (validateSpreadsheetData vOrd dfOrd).Pairwise (fun a b => a.line ≤ b.line) := by decide

/-- C7 amended: when all headers resolve, the error list follows a
column-major traversal: errors of an earlier column precede those of a
later column, and within one column lines strictly increase (the scan
iterates columns in the outer loop and rows in the inner loop). -/
theorem c7_amended (V : Validator) (df : DataFrame)
    (hh : validateHeaders V df.headers = []) :
    (validateSpreadsheetData V df).Pairwise colMajorLt := by
  have hrw : validateSpreadsheetData V df =
      df.headers.enum.flatMap (fun p => columnErrors V df p.1 p.2) := by
    unfold validateSpreadsheetData
    simp [hh]
  rw [hrw, List.pairwise_flatMap]
  constructor
  · intro p _
    exact columnErrors_pairwise V df p.1 p.2
  · refine (pairwise_fst_lt_enumFrom _ 0).imp ?_
    intro p q hpq x hx y hy
    left
    rw [columnErrors_column V df p.1 p.2 x hx, columnErrors_column V df q.1 q.2 y hy]
    omega

/-- Witness for C7 amended at the two-column instance. -/
theorem c7_amended_witness :
    validateHeaders vOrd dfOrd.headers = [] ∧
    (validateSpreadsheetData vOrd dfOrd).Pairwise colMajorLt :=
  ⟨by decide, c7_amended vOrd dfOrd (by decide)⟩

/-- C4: for a select_one question whose list is present (with a non-empty
list name), a value passes type checking exactly when its lowercased
string form equals the lowercased form of a canonical choice value or of
an alias key of that list. -/
theorem c4_select_one (V : Validator) (value : CellValue)
    (question_type ln question_name : String) (choices : List String)
    (hsel : strStartsWith question_type "select_one" = true)
    (hc : dlookup V.choice_lists ln = some choices)
    (hln : ln ≠ "") :
    validateType V value question_type question_name (some ln) = none ↔
      strLower (pyStrCell value) ∈ choices.map strLower ∨
      strLower (pyStrCell value) ∈ aliasKeysLower V ln := by
  have h1 : question_type ≠ "integer" := by
    rintro rfl
    exact absurd hsel (by decide)
  have h2 : question_type ≠ "decimal" := by
    rintro rfl
    exact absurd hsel (by decide)
  have key : validateType V value question_type question_name (some ln) =
      (if strLower (pyStrCell value) ∈ choices.map strLower ∨
          strLower (pyStrCell value) ∈ aliasKeysLower V ln then none
       else some ("Value \x27" ++ pyStrCell value ++
         "\x27 is not a valid choice for select_one question \x27" ++ question_name ++ "\x27")) := by
    unfold validateType
    rw [if_neg h1, if_neg h2, if_pos hsel]
    simp only [hc, hln, ne_eq, not_false_eq_true, if_true]
    rfl
  rw [key]
  by_cases h : strLower (pyStrCell value) ∈ choices.map strLower ∨
      strLower (pyStrCell value) ∈ aliasKeysLower V ln
  · rw [if_pos h]
    exact iff_of_true rfl h
  · rw [if_neg h]
    exact iff_of_false (by simp) h

/-- Witness for C4 at the male/man list: the canonical value, the alias
and their uppercase forms pass, an unknown value fails. -/
theorem c4_select_one_witness :
    strStartsWith "select_one g" "select_one" = true ∧
    dlookup vGender.choice_lists "g" = some ["male"] ∧
    validateType vGender (.strV "male") "select_one g" "gender" (some "g") = none ∧
    validateType vGender (.strV "MALE") "select_one g" "gender" (some "g") = none ∧
    validateType vGender (.strV "man") "select_one g" "gender" (some "g") = none ∧
    validateType vGender (.strV "MAN") "select_one g" "gender" (some "g") = none ∧
    validateType vGender (.strV "unknown") "select_one g" "gender" (some "g") ≠ none := by
  refine ⟨by decide, by decide, ?_, ?_, ?_, ?_, ?_⟩
  · exact (c4_select_one vGender (.strV "male") "select_one g" "g" "gender" ["male"]
      (by decide) (by decide) (by decide)).mpr (by decide)
  · exact (c4_select_one vGender (.strV "MALE") "select_one g" "g" "gender" ["male"]
      (by decide) (by decide) (by decide)).mpr (by decide)
  · exact (c4_select_one vGender (.strV "man") "select_one g" "g" "gender" ["male"]
      (by decide) (by decide) (by decide)).mpr (by decide)
  · exact (c4_select_one vGender (.strV "MAN") "select_one g" "g" "gender" ["male"]
      (by decide) (by decide) (by decide)).mpr (by decide)
  · intro hnone
    exact absurd ((c4_select_one vGender (.strV "unknown") "select_one g" "g" "gender" ["male"]
      (by decide) (by decide) (by decide)).mp hnone) (by decide)

/-- C6: for an expression (non-regex) constraint, an integer (resp.
decimal) question whose value does not coerce to int (resp. float) gets
the distinct cannot-validate error; once the value coerces, an exception
inside expression evaluation (modelled by none) yields the
constraint-unsatisfied error; and the two error texts always differ.  The
checker is a total function, so no exception escapes it. -/
theorem c6_expression_constraint (V : Validator) (value : CellValue)
    (constraint question_name : String)
    (hreg : regexConstraintPattern constraint = none) :
    ((dlookup V.question_types question_name = some "integer" ∧ pyIntOfCell value = none) →
      validateConstraint V value constraint question_name = some (cannotIntMsg value)) ∧
    ((dlookup V.question_types question_name = some "decimal" ∧ pyFloatOfCell value = none) →
      validateConstraint V value constraint question_name = some (cannotDecMsg value)) ∧
    (∀ pv, coerceForConstraint V value question_name = some pv →
      evalConstraintExprB constraint (pyStrCell pv) = none →
      validateConstraint V value constraint question_name = some (unsatMsg constraint value)) ∧
    cannotIntMsg value ≠ unsatMsg constraint value ∧
    cannotDecMsg value ≠ unsatMsg constraint value := by
  refine ⟨?_, ?_, ?_, ?_, ?_⟩
  · rintro ⟨hq, hi⟩
    simp [validateConstraint, hreg, hq, hi, cannotIntMsg]
  · rintro ⟨hq, hf⟩
    simp [validateConstraint, hreg, hq, hf, cannotDecMsg]
  · intro pv hpv hev
    unfold coerceForConstraint at hpv
    unfold validateConstraint
    rw [hreg]
    by_cases hq1 : dlookup V.question_types question_name = some "integer"
    · rw [if_pos hq1] at hpv
      obtain ⟨n, hn, hpn⟩ := Option.map_eq_some'.mp hpv
      subst hpn
      simp [hq1, hn, evaluateXPathConstraint, hev, unsatMsg]
    · rw [if_neg hq1] at hpv
      by_cases hq2 : dlookup V.question_types question_name = some "decimal"
      · rw [if_pos hq2] at hpv
        obtain ⟨d, hd, hpd⟩ := Option.map_eq_some'.mp hpv
        subst hpd
        simp [hq1, hq2, hd, evaluateXPathConstraint, hev, unsatMsg]
      · rw [if_neg hq2] at hpv
        have hvp : value = pv := by injection hpv
        subst hvp
        simp [hq1, hq2, evaluateXPathConstraint, hev, unsatMsg]
  · intro h
    have hx : (cannotIntMsg value).data.take 2 = (unsatMsg constraint value).data.take 2 := by
      rw [h]
    have ha : (cannotIntMsg value).data.take 2 = ['C', 'a'] := rfl
    have hb : (unsatMsg constraint value).data.take 2 = ['C', 'o'] := rfl
    rw [ha, hb] at hx
    exact absurd hx (by decide)
  · intro h
    have hx : (cannotDecMsg value).data.take 2 = (unsatMsg constraint value).data.take 2 := by
      rw [h]
    have ha : (cannotDecMsg value).data.take 2 = ['C', 'a'] := rfl
    have hb : (unsatMsg constraint value).data.take 2 = ['C', 'o'] := rfl
    rw [ha, hb] at hx
    exact absurd hx (by decide)

/-- Witness for C6 at an integer question and a malformed expression: the
evaluator raises (none), and the checker reports the constraint as
unsatisfied rather than propagating. -/
theorem c6_expression_constraint_witness :
    regexConstraintPattern ". <" = none ∧
    coerceForConstraint vNum (.intV 5) "n" = some (.intV 5) ∧
    evalConstraintExprB ". <" (pyStrCell (.intV 5)) = none ∧
    validateConstraint vNum (.intV 5) ". <" "n" = some (unsatMsg ". <" (.intV 5)) :=
  ⟨by decide, by decide, by decide,
    (c6_expression_constraint vNum (.intV 5) ". <" "n" (by decide)).2.2.1
      (.intV 5) (by decide) (by decide)⟩

end XlsVal
